import Mathlib

/-!
Shallow embedding of `crates/client/src/error/client_error.rs` from the
trust-dns repository: the unified client error type (`Error`, here named
`ClientError` to avoid clashing with core Lean names), its kind taxonomy
(`ErrorKind`), the inbound conversions from foreign error types, the
outbound conversion back to a generic I/O error, `Display`, and `Clone`.

Foreign collaborator error types (`DnsSecError`, `ProtoError`,
`std::io::Error`, `futures_channel::mpsc::SendError`) are not part of the
reviewed source file; they are modelled abstractly, keeping exactly the
structure the reviewed code observes: a classification (`kind`) with a
distinguished timeout case, and an opaque display payload.

Rust's `trace!()` backtrace capture reads a process-wide diagnostics
configuration; it is modelled by passing the captured snapshot
(`Option ExtBacktrace`) explicitly to each conversion, standing for the
value `trace!()` returns at the moment of conversion.
-/

/-- Modelled from the spec: the security layer's error classification
(`DnsSecErrorKind`, defined outside the reviewed file). The reviewed code
only distinguishes its `Timeout` case from every other case, so all
non-timeout classifications are collapsed into `Other` with an opaque tag. -/
inductive DnsSecErrorKind where
  | Timeout : DnsSecErrorKind
  | Other (tag : String) : DnsSecErrorKind
deriving DecidableEq, Repr

/-- Modelled from the spec: the security layer's error value (`DnsSecError`),
carrying its classification. Its `Clone` is faithful (derived), so cloning is
the identity in this embedding. -/
structure DnsSecError where
  kind : DnsSecErrorKind
deriving DecidableEq, Repr

/-- Modelled from the spec: the wire-protocol layer's error classification
(`ProtoErrorKind`). The reviewed code only distinguishes its `Timeout` case
from every other case. -/
inductive ProtoErrorKind where
  | Timeout : ProtoErrorKind
  | Other (tag : String) : ProtoErrorKind
deriving DecidableEq, Repr

/-- Modelled from the spec: the wire-protocol layer's error value
(`ProtoError`), carrying its classification; cloning is faithful. -/
structure ProtoError where
  kind : ProtoErrorKind
deriving DecidableEq, Repr

/-- The classification codes of `std::io::ErrorKind` that the reviewed code
distinguishes: `TimedOut` is matched explicitly both inbound and outbound,
`Other` is produced by the outbound conversion; the remaining codes are
represented by two further sample constructors standing for all of them. -/
inductive IoErrorKind where
  | NotFound : IoErrorKind
  | PermissionDenied : IoErrorKind
  | TimedOut : IoErrorKind
  | Other : IoErrorKind
deriving DecidableEq, Repr

/-- A captured diagnostic backtrace (`ExtBacktrace`), opaque to the reviewed
code except for its debug rendering. -/
structure ExtBacktrace where
  debugRepr : String
deriving DecidableEq, Repr

/-- `futures_channel::mpsc::SendError`, opaque to the reviewed code except
for its display rendering (used by the `{0}` in the `SendError` template)
and its faithful `Clone`. -/
structure MpscSendError where
  displayRepr : String
deriving DecidableEq, Repr

mutual
/-- The detail payload attached to a `std::io::Error`: none
(`io::Error::from(kind)`), a string message (`io::Error::new(kind, msg)`),
or a boxed client `Error` (`io::Error::new(kind, e)` in the outbound
conversion). -/
inductive IoDetail where
  | noDetail : IoDetail
  | strDetail (s : String) : IoDetail
  | clientDetail (e : ClientError) : IoDetail

/-- `std::io::Error`: a classification code plus an optional attached
detail payload. -/
inductive IoError where
  | mk (kind : IoErrorKind) (payload : IoDetail) : IoError

/-- The error kind taxonomy of the reviewed file (`ErrorKind`). `Message`
holds a `&'static str` in Rust, embedded as `String` here. -/
inductive ErrorKind where
  | Message (s : String) : ErrorKind
  | Msg (s : String) : ErrorKind
  | DnsSec (e : DnsSecError) : ErrorKind
  | Io (e : IoError) : ErrorKind
  | Proto (e : ProtoError) : ErrorKind
  | SendError (e : MpscSendError) : ErrorKind
  | Timeout : ErrorKind

/-- The error envelope of the reviewed file (`Error`): a kind plus the
optional backtrace captured at construction. -/
inductive ClientError where
  | mk (kind : ErrorKind) (backtrack : Option ExtBacktrace) : ClientError
end

/-- Accessor for the classification code of an I/O error (`io::Error::kind`). -/
def IoError.kind : IoError → IoErrorKind
  | .mk k _ => k

/-- Accessor for the attached detail payload of an I/O error. -/
def IoError.payload : IoError → IoDetail
  | .mk _ p => p

/-- `io::Error::new(kind, msg)` with a string message. -/
def IoError.new (k : IoErrorKind) (msg : String) : IoError :=
  .mk k (.strDetail msg)

/-- `io::Error::from(kind)`: an I/O error built from a classification code
alone, with no attached payload. -/
def IoError.fromKind (k : IoErrorKind) : IoError :=
  .mk k .noDetail

/-- `io::Error::new(kind, e)` with a client error envelope as the detail. -/
def IoError.newClient (k : IoErrorKind) (e : ClientError) : IoError :=
  .mk k (.clientDetail e)

/-- Accessor `Error::kind` of the reviewed file. -/
def ClientError.kind : ClientError → ErrorKind
  | .mk k _ => k

/-- Accessor for the envelope's optional backtrace field. -/
def ClientError.backtrack : ClientError → Option ExtBacktrace
  | .mk _ b => b

/-- The `Display` templates of `ErrorKind` from the `#[error(...)]`
attributes of the reviewed file: `Message`/`Msg` render their payload
verbatim, the wrapped variants render fixed phrases, `SendError`
interpolates the wrapped value's own display. -/
def displayErrorKind : ErrorKind → String
  | .Message s => s
  | .Msg s => s
  | .DnsSec _ => "dnssec error"
  | .Io _ => "io error"
  | .Proto _ => "proto error"
  | .SendError e => "error sending to mpsc: " ++ e.displayRepr
  | .Timeout => "request timed out"

/-- `impl fmt::Display for Error` of the reviewed file: the kind's display
text, followed by the backtrace's debug rendering when one was captured. -/
def displayClientError : ClientError → String
  | .mk k none => displayErrorKind k
  | .mk k (some bt) => displayErrorKind k ++ bt.debugRepr

/-- `impl Clone for ErrorKind` of the reviewed file: every payload is cloned
faithfully except `Io`, which is rebuilt from the original's classification
code alone (`io::Error::from(io.kind())`). -/
def ErrorKind.clone : ErrorKind → ErrorKind
  | .Message s => .Message s
  | .Msg s => .Msg s
  | .DnsSec e => .DnsSec e
  | .Io e => .Io (IoError.fromKind e.kind)
  | .Proto e => .Proto e
  | .SendError e => .SendError e
  | .Timeout => .Timeout

/-- `From<ErrorKind> for Error` of the reviewed file: wrap the kind with the
backtrace captured by `trace!()` at this moment (passed explicitly here). -/
def ClientError.fromKind (bt : Option ExtBacktrace) (k : ErrorKind) : ClientError :=
  .mk k bt

/-- `From<&'static str> for Error` of the reviewed file. -/
def ClientError.fromStaticStr (bt : Option ExtBacktrace) (msg : String) : ClientError :=
  ClientError.fromKind bt (.Message msg)

/-- `From<String> for Error` of the reviewed file. -/
def ClientError.fromString (bt : Option ExtBacktrace) (msg : String) : ClientError :=
  ClientError.fromKind bt (.Msg msg)

/-- `From<mpsc::SendError> for Error` of the reviewed file. -/
def ClientError.fromSendError (bt : Option ExtBacktrace) (e : MpscSendError) : ClientError :=
  ClientError.fromKind bt (.SendError e)

/-- `From<DnsSecError> for Error` of the reviewed file: a security error
whose own classification is `Timeout` is normalized to `ErrorKind::Timeout`;
anything else is wrapped as `DnsSec`. -/
def ClientError.fromDnsSecError (bt : Option ExtBacktrace) (e : DnsSecError) : ClientError :=
  match e.kind with
  | .Timeout => ClientError.fromKind bt .Timeout
  | _ => ClientError.fromKind bt (.DnsSec e)

/-- `From<io::Error> for Error` of the reviewed file: an I/O error whose
classification is `TimedOut` is normalized to `ErrorKind::Timeout`; anything
else is wrapped as `Io`. -/
def ClientError.fromIoError (bt : Option ExtBacktrace) (e : IoError) : ClientError :=
  match e.kind with
  | .TimedOut => ClientError.fromKind bt .Timeout
  | _ => ClientError.fromKind bt (.Io e)

/-- `From<ProtoError> for Error` of the reviewed file: a protocol error whose
own classification is `Timeout` is normalized to `ErrorKind::Timeout`;
anything else is wrapped as `Proto`. -/
def ClientError.fromProtoError (bt : Option ExtBacktrace) (e : ProtoError) : ClientError :=
  match e.kind with
  | .Timeout => ClientError.fromKind bt .Timeout
  | _ => ClientError.fromKind bt (.Proto e)

/-- `From<Error> for io::Error` of the reviewed file: a `Timeout` envelope
becomes a `TimedOut` I/O error, any other kind becomes `Other`; the envelope
itself is attached as the detail in both cases. -/
def IoError.fromClientError (e : ClientError) : IoError :=
  match e.kind with
  | .Timeout => IoError.newClient .TimedOut e
  | _ => IoError.newClient .Other e

/-! ## Helper lemmas -/

/-- Helper: the I/O inbound conversion normalizes a `TimedOut` classification. -/
theorem fromIoError_timeout (bt : Option ExtBacktrace) (i : IoError)
    (hi : i.kind = .TimedOut) :
    (ClientError.fromIoError bt i).kind = .Timeout := by
  unfold ClientError.fromIoError
  rw [hi]
  rfl

/-- Helper: the security inbound conversion normalizes a `Timeout` classification. -/
theorem fromDnsSecError_timeout (bt : Option ExtBacktrace) (d : DnsSecError)
    (hd : d.kind = .Timeout) :
    (ClientError.fromDnsSecError bt d).kind = .Timeout := by
  unfold ClientError.fromDnsSecError
  rw [hd]
  rfl

/-- Helper: the protocol inbound conversion normalizes a `Timeout` classification. -/
theorem fromProtoError_timeout (bt : Option ExtBacktrace) (p : ProtoError)
    (hp : p.kind = .Timeout) :
    (ClientError.fromProtoError bt p).kind = .Timeout := by
  unfold ClientError.fromProtoError
  rw [hp]
  rfl

/-- Helper: a non-timeout security error is wrapped as `DnsSec`. -/
theorem fromDnsSecError_wraps (bt : Option ExtBacktrace) (d : DnsSecError)
    (hd : d.kind ≠ .Timeout) :
    (ClientError.fromDnsSecError bt d).kind = .DnsSec d := by
  obtain ⟨dk⟩ := d
  cases dk with
  | Timeout => exact absurd rfl hd
  | Other tag => rfl

/-- Helper: a non-timed-out I/O error is wrapped as `Io`. -/
theorem fromIoError_wraps (bt : Option ExtBacktrace) (i : IoError)
    (hi : i.kind ≠ .TimedOut) :
    (ClientError.fromIoError bt i).kind = .Io i := by
  obtain ⟨ik, ip⟩ := i
  cases ik with
  | TimedOut => exact absurd rfl hi
  | NotFound => rfl
  | PermissionDenied => rfl
  | Other => rfl

/-- Helper: a non-timeout protocol error is wrapped as `Proto`. -/
theorem fromProtoError_wraps (bt : Option ExtBacktrace) (p : ProtoError)
    (hp : p.kind ≠ .Timeout) :
    (ClientError.fromProtoError bt p).kind = .Proto p := by
  obtain ⟨pk⟩ := p
  cases pk with
  | Timeout => exact absurd rfl hp
  | Other tag => rfl

/-! ## Claim theorems -/

/-- C1: every security, I/O, or protocol error whose own immediate
classification is timeout converts inbound to an envelope of kind
`Timeout`; in particular an I/O error built with classification `TimedOut`
and message "mock timeout" does. -/
theorem timeout_normalization (bt : Option ExtBacktrace) (d : DnsSecError)
    (i : IoError) (p : ProtoError) (hd : d.kind = .Timeout)
    (hi : i.kind = .TimedOut) (hp : p.kind = .Timeout) :
    (ClientError.fromDnsSecError bt d).kind = .Timeout ∧
    (ClientError.fromIoError bt i).kind = .Timeout ∧
    (ClientError.fromProtoError bt p).kind = .Timeout ∧
    (ClientError.fromIoError bt (IoError.new .TimedOut "mock timeout")).kind = .Timeout :=
  ⟨fromDnsSecError_timeout bt d hd, fromIoError_timeout bt i hi,
   fromProtoError_timeout bt p hp,
   fromIoError_timeout bt (IoError.new .TimedOut "mock timeout") rfl⟩

/-- Witness for C1 at concrete timeout-classified inputs. -/
theorem timeout_normalization_witness :
    (ClientError.fromDnsSecError none ⟨DnsSecErrorKind.Timeout⟩).kind = .Timeout ∧
    (ClientError.fromIoError none (IoError.new .TimedOut "mock timeout")).kind = .Timeout ∧
    (ClientError.fromProtoError none ⟨ProtoErrorKind.Timeout⟩).kind = .Timeout ∧
    (ClientError.fromIoError none (IoError.new .TimedOut "mock timeout")).kind = .Timeout :=
  timeout_normalization none ⟨DnsSecErrorKind.Timeout⟩
    (IoError.new .TimedOut "mock timeout") ⟨ProtoErrorKind.Timeout⟩ rfl rfl rfl

/-- C2: every security, I/O, or protocol error whose own immediate
classification is not timeout converts inbound to the corresponding
wrapped variant carrying that very foreign value, and never to `Timeout`. -/
theorem non_timeout_wraps (bt : Option ExtBacktrace) (d : DnsSecError)
    (i : IoError) (p : ProtoError) (hd : d.kind ≠ .Timeout)
    (hi : i.kind ≠ .TimedOut) (hp : p.kind ≠ .Timeout) :
    (ClientError.fromDnsSecError bt d).kind = .DnsSec d ∧
    (ClientError.fromIoError bt i).kind = .Io i ∧
    (ClientError.fromProtoError bt p).kind = .Proto p ∧
    (ClientError.fromDnsSecError bt d).kind ≠ .Timeout ∧
    (ClientError.fromIoError bt i).kind ≠ .Timeout ∧
    (ClientError.fromProtoError bt p).kind ≠ .Timeout := by
  have h1 := fromDnsSecError_wraps bt d hd
  have h2 := fromIoError_wraps bt i hi
  have h3 := fromProtoError_wraps bt p hp
  refine ⟨h1, h2, h3, ?_, ?_, ?_⟩
  · rw [h1]; simp
  · rw [h2]; simp
  · rw [h3]; simp

/-- Witness for C2 at concrete non-timeout inputs. -/
theorem non_timeout_wraps_witness :
    (ClientError.fromDnsSecError none ⟨DnsSecErrorKind.Other "nsec"⟩).kind
      = .DnsSec ⟨DnsSecErrorKind.Other "nsec"⟩ ∧
    (ClientError.fromIoError none (IoError.new .NotFound "missing")).kind
      = .Io (IoError.new .NotFound "missing") ∧
    (ClientError.fromProtoError none ⟨ProtoErrorKind.Other "bad rdata"⟩).kind
      = .Proto ⟨ProtoErrorKind.Other "bad rdata"⟩ ∧
    (ClientError.fromDnsSecError none ⟨DnsSecErrorKind.Other "nsec"⟩).kind ≠ .Timeout ∧
    (ClientError.fromIoError none (IoError.new .NotFound "missing")).kind ≠ .Timeout ∧
    (ClientError.fromProtoError none ⟨ProtoErrorKind.Other "bad rdata"⟩).kind ≠ .Timeout :=
  non_timeout_wraps none ⟨DnsSecErrorKind.Other "nsec"⟩
    (IoError.new .NotFound "missing") ⟨ProtoErrorKind.Other "bad rdata"⟩
    (by simp) (by simp [IoError.new, IoError.kind]) (by simp)

/-- C4: the static-string conversion yields kind `Message s` and the
owned-string conversion yields kind `Msg s`, for every string; neither
yields `Timeout` even when the string content is the word "timeout". -/
theorem string_conversions (bt : Option ExtBacktrace) (s t : String) :
    (ClientError.fromStaticStr bt s).kind = .Message s ∧
    (ClientError.fromString bt t).kind = .Msg t ∧
    (ClientError.fromStaticStr bt "timeout").kind ≠ .Timeout ∧
    (ClientError.fromString bt "timeout").kind ≠ .Timeout := by
  refine ⟨rfl, rfl, ?_, ?_⟩ <;>
    simp [ClientError.fromStaticStr, ClientError.fromString, ClientError.fromKind,
      ClientError.kind]

/-- C5: cloning an `ErrorKind` is lossy exactly for `Io`: the clone of
`Io e` is rebuilt from `e`'s classification code alone with its payload
discarded, while every other variant clones its payload faithfully, so
their clones' display output equals the originals'. -/
theorem clone_lossy_io_only (i : IoError) (d : DnsSecError) (p : ProtoError)
    (q : MpscSendError) (s t : String) :
    (ErrorKind.Io i).clone = .Io (IoError.fromKind i.kind) ∧
    (IoError.fromKind i.kind).payload = .noDetail ∧
    (ErrorKind.Message s).clone = .Message s ∧
    (ErrorKind.Msg t).clone = .Msg t ∧
    (ErrorKind.DnsSec d).clone = .DnsSec d ∧
    (ErrorKind.Proto p).clone = .Proto p ∧
    (ErrorKind.SendError q).clone = .SendError q ∧
    ErrorKind.Timeout.clone = .Timeout ∧
    displayErrorKind (ErrorKind.Message s).clone = displayErrorKind (.Message s) ∧
    displayErrorKind (ErrorKind.Msg t).clone = displayErrorKind (.Msg t) ∧
    displayErrorKind (ErrorKind.DnsSec d).clone = displayErrorKind (.DnsSec d) ∧
    displayErrorKind (ErrorKind.Proto p).clone = displayErrorKind (.Proto p) ∧
    displayErrorKind (ErrorKind.SendError q).clone = displayErrorKind (.SendError q) ∧
    displayErrorKind ErrorKind.Timeout.clone = displayErrorKind .Timeout :=
  ⟨rfl, rfl, rfl, rfl, rfl, rfl, rfl, rfl, rfl, rfl, rfl, rfl, rfl, rfl⟩

/-- C3: the outbound conversion yields a `TimedOut` I/O error exactly when
the envelope's kind is `Timeout`, and an `Other` I/O error for every other
kind; in both cases the envelope itself is attached as the detail. -/
theorem outbound_io_conversion (e : ClientError) :
    ((IoError.fromClientError e).kind = .TimedOut ↔ e.kind = .Timeout) ∧
    ((IoError.fromClientError e).kind = .Other ↔ e.kind ≠ .Timeout) ∧
    (IoError.fromClientError e).payload = .clientDetail e := by
  obtain ⟨k, b⟩ := e
  cases k <;>
    simp [IoError.fromClientError, ClientError.kind, IoError.newClient,
      IoError.kind, IoError.payload]

/-- C6 counterexample: the `Message` variant with an empty string payload
displays as the empty string, so Display does produce empty output. -/
theorem display_empty_on_empty_message :
    displayErrorKind (ErrorKind.Message "") = "" := rfl

/-- C6 amended: Display is a total function (so it never panics), and it
never produces empty output for any variant except `Message`/`Msg` whose
string payload is itself empty. -/
theorem display_nonempty (k : ErrorKind)
    (h : ∀ s, (k = .Message s ∨ k = .Msg s) → s ≠ "") :
    displayErrorKind k ≠ "" := by
  cases k with
  | Message s => exact h s (Or.inl rfl)
  | Msg s => exact h s (Or.inr rfl)
  | DnsSec e => exact (by decide : ("dnssec error" : String) ≠ "")
  | Io e => exact (by decide : ("io error" : String) ≠ "")
  | Proto e => exact (by decide : ("proto error" : String) ≠ "")
  | SendError e =>
      intro hc
      simp only [displayErrorKind] at hc
      have h1 := congrArg String.length hc
      rw [String.length_append] at h1
      have h2 : ("error sending to mpsc: ").length = 23 := by decide
      have h3 : ("" : String).length = 0 := by decide
      omega
  | Timeout => exact (by decide : ("request timed out" : String) ≠ "")

/-- Witness for C6 amended at a concrete nonempty-payload input. -/
theorem display_nonempty_witness :
    displayErrorKind (ErrorKind.Message "mock") ≠ "" :=
  display_nonempty (ErrorKind.Message "mock") (fun s hs => by
    cases hs with
    | inl h => injection h with h2; subst h2; decide
    | inr h => exact nomatch h)

/-- C7: Display of the envelope is exactly the kind's display text when no
backtrace was captured, and the kind's display text followed by the
backtrace's debug rendering when one is present. -/
theorem display_composition (e : ClientError) :
    (e.backtrack = none → displayClientError e = displayErrorKind e.kind) ∧
    (∀ bt, e.backtrack = some bt →
      displayClientError e = displayErrorKind e.kind ++ bt.debugRepr) := by
  obtain ⟨k, b⟩ := e
  cases b with
  | none =>
      refine ⟨fun _ => rfl, fun bt hbt => ?_⟩
      exact absurd hbt (by simp [ClientError.backtrack])
  | some bt0 =>
      refine ⟨fun hn => absurd hn (by simp [ClientError.backtrack]), fun bt hbt => ?_⟩
      simp only [ClientError.backtrack, Option.some.injEq] at hbt
      subst hbt
      rfl

/-- Witness for C7 with and without a captured backtrace. -/
theorem display_composition_witness :
    displayClientError (ClientError.mk .Timeout none) = displayErrorKind .Timeout ∧
    displayClientError (ClientError.mk .Timeout (some (ExtBacktrace.mk "stack"))) =
      displayErrorKind .Timeout ++ (ExtBacktrace.mk "stack").debugRepr :=
  ⟨(display_composition (ClientError.mk .Timeout none)).1 rfl,
   (display_composition (ClientError.mk .Timeout (some (ExtBacktrace.mk "stack")))).2
     (ExtBacktrace.mk "stack") rfl⟩

/-- C8 counterexample: the security variant displays "dnssec error", not
"security error", and the send-error variant displays with the prefix
"error sending to mpsc: ", not "error sending to queue: ". -/
theorem display_phrases_cex :
    displayErrorKind (ErrorKind.DnsSec (DnsSecError.mk (.Other "nsec"))) ≠
      "security error" ∧
    displayErrorKind (ErrorKind.SendError (MpscSendError.mk "disconnected")) ≠
      "error sending to queue: disconnected" := by
  constructor <;> decide

/-- C8 amended: the wrapped variants display the fixed phrases of the code,
"dnssec error", "io error", "proto error", and "error sending to mpsc: "
followed by the wrapped send error's own display text, while `Message` and
`Msg` render their string payload verbatim. -/
theorem display_phrases (d : DnsSecError) (i : IoError) (p : ProtoError)
    (q : MpscSendError) (s t : String) :
    displayErrorKind (.DnsSec d) = "dnssec error" ∧
    displayErrorKind (.Io i) = "io error" ∧
    displayErrorKind (.Proto p) = "proto error" ∧
    displayErrorKind (.SendError q) = "error sending to mpsc: " ++ q.displayRepr ∧
    displayErrorKind (.Message s) = s ∧
    displayErrorKind (.Msg t) = t :=
  ⟨rfl, rfl, rfl, rfl, rfl, rfl⟩

/-- C9: the generic construction from a kind is total, stores exactly that
kind, and attaches the backtrace snapshot captured at the moment of
conversion; every inbound conversion likewise attaches that snapshot and
always produces an envelope. -/
theorem construction_total (bt : Option ExtBacktrace) (k : ErrorKind)
    (s t : String) (d : DnsSecError) (i : IoError) (p : ProtoError)
    (q : MpscSendError) :
    (ClientError.fromKind bt k).kind = k ∧
    (ClientError.fromKind bt k).backtrack = bt ∧
    (ClientError.fromStaticStr bt s).backtrack = bt ∧
    (ClientError.fromString bt t).backtrack = bt ∧
    (ClientError.fromSendError bt q).backtrack = bt ∧
    (ClientError.fromDnsSecError bt d).backtrack = bt ∧
    (ClientError.fromIoError bt i).backtrack = bt ∧
    (ClientError.fromProtoError bt p).backtrack = bt := by
  refine ⟨rfl, rfl, rfl, rfl, rfl, ?_, ?_, ?_⟩
  · obtain ⟨dk⟩ := d; cases dk <;> rfl
  · obtain ⟨ik, ip⟩ := i; cases ik <;> rfl
  · obtain ⟨pk⟩ := p; cases pk <;> rfl

/-- C10: the generic entry point from a kind performs no timeout
re-tagging: every kind passes through unchanged, in particular a wrapped
timeout-classified I/O, protocol, or security error; normalization to
`Timeout` happens only in the foreign-type conversion entry points. -/
theorem fromKind_no_retag (bt : Option ExtBacktrace) (k : ErrorKind)
    (i : IoError) (p : ProtoError) (d : DnsSecError)
    (hi : i.kind = .TimedOut) (hp : p.kind = .Timeout)
    (hd : d.kind = .Timeout) :
    (ClientError.fromKind bt k).kind = k ∧
    (ClientError.fromKind bt (.Io i)).kind = .Io i ∧
    (ClientError.fromKind bt (.Proto p)).kind = .Proto p ∧
    (ClientError.fromKind bt (.DnsSec d)).kind = .DnsSec d ∧
    (ClientError.fromKind bt (.Io i)).kind ≠ .Timeout ∧
    (ClientError.fromIoError bt i).kind = .Timeout ∧
    (ClientError.fromProtoError bt p).kind = .Timeout ∧
    (ClientError.fromDnsSecError bt d).kind = .Timeout := by
  refine ⟨rfl, rfl, rfl, rfl, ?_,
    fromIoError_timeout bt i hi, fromProtoError_timeout bt p hp,
    fromDnsSecError_timeout bt d hd⟩
  simp [ClientError.fromKind, ClientError.kind]

/-- Witness for C10 at concrete timeout-classified wrapped inputs. -/
theorem fromKind_no_retag_witness :
    (ClientError.fromKind none .Timeout).kind = .Timeout ∧
    (ClientError.fromKind none (.Io (IoError.new .TimedOut "late"))).kind
      = .Io (IoError.new .TimedOut "late") ∧
    (ClientError.fromKind none (.Proto ⟨ProtoErrorKind.Timeout⟩)).kind
      = .Proto ⟨ProtoErrorKind.Timeout⟩ ∧
    (ClientError.fromKind none (.DnsSec ⟨DnsSecErrorKind.Timeout⟩)).kind
      = .DnsSec ⟨DnsSecErrorKind.Timeout⟩ ∧
    (ClientError.fromKind none (.Io (IoError.new .TimedOut "late"))).kind ≠ .Timeout ∧
    (ClientError.fromIoError none (IoError.new .TimedOut "late")).kind = .Timeout ∧
    (ClientError.fromProtoError none ⟨ProtoErrorKind.Timeout⟩).kind = .Timeout ∧
    (ClientError.fromDnsSecError none ⟨DnsSecErrorKind.Timeout⟩).kind = .Timeout :=
  fromKind_no_retag none .Timeout (IoError.new .TimedOut "late")
    ⟨ProtoErrorKind.Timeout⟩ ⟨DnsSecErrorKind.Timeout⟩ rfl rfl rfl
